import Mathlib

/-!
Verification development for the finna expense-categorization service.

The TypeScript source is shallowly embedded: JavaScript numbers are modeled
as rationals (ℚ), JavaScript strings as Lean `String`, possibly-absent values
as `Option`, thrown exceptions as `Except`, and the DuckDB tables as lists of
row structures.  Where a JavaScript property read can yield `undefined`
(a record lacking the field), the read is modeled as `none`, and arithmetic
on such values follows JavaScript semantics (`undefined + n` is `NaN`, and
every `>=` comparison against `NaN` is false).
-/

namespace Finna

/-! ## String primitives shared by several components -/

/-- `s.toLowerCase()` / SQL `LOWER(s)`: character-wise lowercasing. -/
def lowerStr (s : String) : String :=
  ⟨s.data.map Char.toLower⟩

/-- Substring test on character lists: does `sub` occur contiguously in `l`?
Models JavaScript `String.prototype.includes` and SQL `LIKE '%' || sub || '%'`. -/
def hasInfixChars (sub : List Char) : List Char → Bool
  | [] => sub.isEmpty
  | c :: t => sub.isPrefixOf (c :: t) || hasInfixChars sub t

/-- `s.includes(sub)` on strings. -/
def jsIncludes (s sub : String) : Bool :=
  hasInfixChars sub.data s.data

/-- JavaScript truthiness of a possibly-absent string (`undefined` and `""` are falsy). -/
def truthyStr : Option String → Bool
  | none => false
  | some s => s ≠ ""

/-- JavaScript truthiness of a possibly-absent number (`undefined` and `0` are falsy). -/
def truthyNum : Option ℚ → Bool
  | none => false
  | some q => q ≠ 0

/-- One pass of `replace(/\s+/g, ' ')`: each maximal whitespace run becomes one space.
The boolean argument records whether the previous character was whitespace. -/
def collapseWSAux : Bool → List Char → List Char
  | _, [] => []
  | lastWS, c :: rest =>
    if c.isWhitespace then
      if lastWS then collapseWSAux true rest
      else ' ' :: collapseWSAux true rest
    else c :: collapseWSAux false rest

/-- Drop leading and trailing whitespace characters (`trim()` / SQL `TRIM`). -/
def trimChars (l : List Char) : List Char :=
  ((l.dropWhile Char.isWhitespace).reverse.dropWhile Char.isWhitespace).reverse

/-- `cleanCsvString` from `db-operations.ts`: collapse every whitespace run to a
single space, then trim.  The same normalization is applied by the ingestion SQL
`TRIM(REGEXP_REPLACE(x, '\s+', ' ', 'g'))` to the stored description/merchant columns. -/
def cleanCsvString (s : String) : String :=
  ⟨trimChars (collapseWSAux false s.data)⟩

/-- SQL `COALESCE(x, '')` for a nullable varchar. -/
def coalesceStr (o : Option String) : String :=
  o.getD ""

/-! ## Identity derivation at ingestion (`ingestCreditCardCSV` / `ingestBankStatementCSV`) -/

/-- One raw credit-card CSV row, carrying the varchar renderings the ingestion SQL
uses: `Date::VARCHAR`, `Description`, `CAST(Amount as VARCHAR)`, and the
`"Appears On Your Statement As"` column.  `none` is a SQL NULL cell. -/
structure CreditCardRow where
  dateStr : Option String
  description : Option String
  amountStr : Option String
  statementAs : Option String
deriving DecidableEq

/-- One raw bank-statement CSV row (`"Posting Date"::VARCHAR`, `Description`,
`CAST(Amount as VARCHAR)`). -/
structure BankStatementRow where
  postingDateStr : Option String
  description : Option String
  amountStr : Option String
deriving DecidableEq

/-- The string the credit-card ingestion SQL feeds to `md5`:
`COALESCE(Date::VARCHAR,'') || COALESCE(Description,'') || COALESCE(CAST(Amount as VARCHAR),'') || COALESCE("Appears On Your Statement As",'')`.
The raw cell values are concatenated; no whitespace normalization is applied here. -/
def creditCardHashInput (r : CreditCardRow) : String :=
  coalesceStr r.dateStr ++ coalesceStr r.description ++ coalesceStr r.amountStr
    ++ coalesceStr r.statementAs

/-- The string the bank-statement ingestion SQL feeds to `md5`:
date, description and amount only (the merchant column is a copy of the description
and is not hashed separately). -/
def bankStatementHashInput (r : BankStatementRow) : String :=
  coalesceStr r.postingDateStr ++ coalesceStr r.description ++ coalesceStr r.amountStr

/-- The derived expense id: `'exp_' || md5(...)`.  The hash itself is an external
primitive, taken as a parameter `md5hex`. -/
def creditCardId (md5hex : String → String) (r : CreditCardRow) : String :=
  "exp_" ++ md5hex (creditCardHashInput r)

/-- The derived id of a bank-statement row: `'exp_' || md5(...)` over the
three-field raw concatenation. -/
def bankStatementId (md5hex : String → String) (r : BankStatementRow) : String :=
  "exp_" ++ md5hex (bankStatementHashInput r)

/-- The stored `description` column of a bank-statement row:
`TRIM(REGEXP_REPLACE(COALESCE(Description, ''), '\s+', ' ', 'g'))`. -/
def bankStatementStoredDescription (r : BankStatementRow) : String :=
  cleanCsvString (coalesceStr r.description)

/-- The stored `merchant` column of a bank-statement row — the same expression
over the same `Description` column as the stored description. -/
def bankStatementStoredMerchant (r : BankStatementRow) : String :=
  cleanCsvString (coalesceStr r.description)

/-- The claim's version of the hash input, written from the spec's words for
comparison with `creditCardHashInput`: the whitespace-collapsed, trimmed
(normalized) fields concatenated. -/
def specClaimHashInput (r : CreditCardRow) : String :=
  cleanCsvString (coalesceStr r.dateStr) ++ cleanCsvString (coalesceStr r.description)
    ++ cleanCsvString (coalesceStr r.amountStr) ++ cleanCsvString (coalesceStr r.statementAs)

/-- The claim's version of the bank-statement hash input, written from the
spec's words for comparison with `bankStatementHashInput`: the
whitespace-collapsed, trimmed (normalized) fields concatenated. -/
def specClaimBankHashInput (r : BankStatementRow) : String :=
  cleanCsvString (coalesceStr r.postingDateStr) ++ cleanCsvString (coalesceStr r.description)
    ++ cleanCsvString (coalesceStr r.amountStr)

/-! ## Split validation (`validateSubExpenseSums`, `createSubExpenses`) -/

/-- `reduce((acc, amount) => acc + amount, 0)`. -/
def sumAmounts (l : List ℚ) : ℚ :=
  l.foldl (· + ·) 0

/-- The one-cent tolerance used by `validateSubExpenseSums`. -/
def tolerance : ℚ := 1 / 100

/-- Render a rational with two decimal places, modeling `Number.prototype.toFixed(2)`
(round half up on the magnitude, sign prepended). -/
def toFixed2 (q : ℚ) : String :=
  let sign := if q < 0 then "-" else ""
  let n : ℤ := round (|q| * 100)
  let whole := n / 100
  let frac := (n % 100).natAbs
  sign ++ toString whole ++ "." ++ (if frac < 10 then "0" else "") ++ toString frac

/-- The message of the validation error thrown by `validateSubExpenseSums`. -/
def subExpenseSumMessage (sum parentAmount : ℚ) : String :=
  "Sub-expense amounts ($" ++ toFixed2 sum ++ ") do not sum to parent expense amount ($"
    ++ toFixed2 parentAmount ++ "). Difference: $" ++ toFixed2 (|sum - parentAmount|)

/-- `validateSubExpenseSums` from `db-operations.ts`: throw when the child amounts
differ from the parent amount by strictly more than one cent. -/
def validateSubExpenseSums (parentAmount : ℚ) (subExpenseAmounts : List ℚ) :
    Except String Unit :=
  let sum := sumAmounts subExpenseAmounts
  if |sum - parentAmount| > tolerance then
    .error (subExpenseSumMessage sum parentAmount)
  else
    .ok ()

/-- One row of a per-run `expenses_<runId>` table. -/
structure ExpenseRow where
  id : String
  runId : String
  date : String
  description : String
  amount : ℚ
  merchant : String
  source : String
  parentExpenseId : Option String
  isSubExpense : Bool
deriving DecidableEq

/-- One requested child in a split (`SubExpenseSplit` in `types.ts`). -/
structure SubExpenseSplit where
  description : String
  amount : ℚ
  merchant : Option String
deriving DecidableEq

/-- The child row inserted by `createSubExpenses` for one split entry.  The
generated id (`Date.now()` and `Math.random()` based) is supplied by `idGen`. -/
def mkSubExpense (idGen : Nat → String) (parent : ExpenseRow) (i : Nat)
    (split : SubExpenseSplit) : ExpenseRow :=
  { id := parent.id ++ "_sub_" ++ idGen i
    runId := parent.runId
    date := parent.date
    description := cleanCsvString split.description
    amount := split.amount
    merchant := cleanCsvString (split.merchant.getD parent.merchant)
    source := parent.source
    parentExpenseId := some parent.id
    isSubExpense := true }

/-- `createSubExpenses` from `db-operations.ts`, acting on the expense table
state: validate first, and only then insert the child rows.  The result pairs
the table after the call with either the created ids or the thrown message. -/
def createSubExpenses (idGen : Nat → String) (table : List ExpenseRow)
    (parent : ExpenseRow) (splits : List SubExpenseSplit) :
    List ExpenseRow × Except String (List String) :=
  match validateSubExpenseSums parent.amount (splits.map (·.amount)) with
  | .error e => (table, .error e)
  | .ok _ =>
    let children := (splits.enum.map fun p => mkSubExpense idGen parent p.1 p.2)
    (table ++ children, .ok (children.map (·.id)))

/-! ## Category table (`categories`), lookup and creation -/

/-- One row of the `categories` table / the `Category` type in `types.ts`. -/
structure Category where
  id : String
  name : String
  description : String
  parentId : Option String
deriving DecidableEq

/-- SQL equality against a parameter under three-valued logic: a comparison
involving NULL is not true, so a NULL `parentId` never matches. -/
def sqlEqOpt : Option String → Option String → Bool
  | some a, some b => a = b
  | _, _ => false

/-- `findCategoryByNameAndParent` from `db-operations.ts`:
`SELECT * FROM categories WHERE LOWER(name) = LOWER(?) AND parentId = ?`,
first row or `null`. -/
def findCategoryByNameAndParent (cats : List Category) (name : String)
    (parentId : Option String) : Option Category :=
  cats.find? fun c => lowerStr c.name = lowerStr name && sqlEqOpt c.parentId parentId

/-- Modelled from the spec: `findCategoryByName` is imported from `db-operations`
by `inngest/categorizeExpense.ts` but its definition is not under `src/`; per the
spec's Taxonomy Guard it looks up an existing node by case-insensitive name
(across all parents, as the single-argument call site indicates). -/
def findCategoryByName (cats : List Category) (name : String) : Option Category :=
  cats.find? fun c => lowerStr c.name = lowerStr name

/-- `createCategory`: a plain `INSERT` into the categories table. -/
def createCategory (cats : List Category) (c : Category) : List Category :=
  cats ++ [c]

/-- `handleCreateCategory` from `handlers/categories.ts`: after the
required-fields truthiness check it inserts directly, with no duplicate lookup.
Returns the table after the call and either the new id or the 400 error. -/
def handleCreateCategory (cats : List Category) (freshId : String)
    (name description parentId : String) : List Category × Except String String :=
  if name = "" || description = "" || parentId = "" then
    (cats, .error "name, description, and parentId required")
  else
    (createCategory cats ⟨freshId, name, description, some parentId⟩, .ok freshId)

/-- A requested new category in a review-resolution body (fields as sent by the
client; `parentId` may be absent). -/
structure NewCategoryRequest where
  name : String
  description : String
  parentId : Option String
deriving DecidableEq

/-- The category-creation part of `handleNormalCategorization` in
`handlers/review.ts` (lines 218-244): look up `(name, parentId)`
case-insensitively and reuse the existing id, otherwise insert a fresh node.
Returns the table after the call and the category id used. -/
def handleNormalCategorizationNewCategory (cats : List Category) (freshId : String)
    (nc : NewCategoryRequest) : List Category × String :=
  match findCategoryByNameAndParent cats nc.name nc.parentId with
  | some existing => (cats, existing.id)
  | none => (createCategory cats ⟨freshId, nc.name, nc.description, nc.parentId⟩, freshId)

/-- The taxonomy dedup invariant: no two sibling categories share a
case-insensitive name. -/
def noDupSiblings (cats : List Category) : Prop :=
  cats.Pairwise fun c₁ c₂ => ¬(lowerStr c₁.name = lowerStr c₂.name ∧ c₁.parentId = c₂.parentId)

instance (cats : List Category) : Decidable (noDupSiblings cats) := by
  unfold noDupSiblings; infer_instance

/-! ## The classifier collaborator (`llm.ts`, `categorizeExpense` at lines 197-425) -/

/-- The vague-merchant list from `llm.ts`. -/
def OBFUSCATED_MERCHANTS : List String :=
  ["amazon", "venmo", "paypal", "cash app", "zelle", "apple pay", "google pay", "square"]

/-- `isObfuscatedMerchant` from `llm.ts`: case-insensitive substring test against
the vague-merchant list. -/
def isObfuscatedMerchant (merchant : String) : Bool :=
  OBFUSCATED_MERCHANTS.any fun obf => jsIncludes (lowerStr merchant) obf

/-- A raw `newCategory` object as parsed from the model's JSON (fields may be
missing). -/
structure NewCategoryRaw where
  name : Option String
  description : Option String
  parentId : Option String
deriving DecidableEq

/-- The model's reply after `JSON.parse` succeeded (fields may be missing). -/
structure ParsedReply where
  action : Option String
  categoryId : Option String
  confidence : Option ℚ
  reasoning : Option String
  newCategory : Option NewCategoryRaw
deriving DecidableEq

/-- What `ollama.chat` + `JSON.parse` produced: a parsed object, or a thrown
error carrying its message (connection errors and invalid JSON alike). -/
inductive ChatOutcome where
  | ok (p : ParsedReply)
  | err (msg : String)
deriving DecidableEq

/-- `CategorizationResponse` (`types.ts`) as returned by `llm.ts`. -/
structure CategorizationResponse where
  action : String
  categoryId : Option String
  confidence : Option ℚ
  reasoning : String
  newCategory : Option NewCategoryRaw
deriving DecidableEq

/-- The timeout test in the catch block of `llm.ts` (lines 394-397). -/
def isTimeoutMsg (msg : String) : Bool :=
  jsIncludes (lowerStr msg) "timeout" || jsIncludes (lowerStr msg) "timed out"
    || jsIncludes (lowerStr msg) "econnaborted"

/-- The fallback reply the catch block returns for non-timeout errors. -/
def errorFallback (msg : String) : CategorizationResponse :=
  { action := "needs_human_review", categoryId := none, confidence := none
    reasoning := "Error during categorization: " ++ msg, newCategory := none }

/-- Validation and defaulting of a parsed reply (`llm.ts` lines 352-392).
Thrown validation errors are modeled as `.error` and are re-caught by
`llmCategorizeExpense` below. -/
def validateParsedReply (p : ParsedReply) : Except String CategorizationResponse :=
  if !truthyStr p.action then
    .error "Invalid response format from LLM: missing action"
  else
    let action := p.action.getD ""
    let reasoning :=
      if truthyStr p.reasoning then p.reasoning.getD ""
      else if action = "create_subcategory" && p.newCategory.isSome then
        "Creating new subcategory: " ++ ((p.newCategory.map (·.name)).getD none).getD ""
      else if action = "categorize" then "Categorized based on expense details"
      else "Needs human review"
    let confidence₁ :=
      if action = "categorize" && p.confidence.isNone then some (1 / 2) else p.confidence
    if action = "create_subcategory" then
      match p.newCategory with
      | none => .error "Invalid response format from LLM: create_subcategory missing newCategory details"
      | some nc =>
        if !truthyStr nc.name || !truthyStr nc.description || !truthyStr nc.parentId then
          .error "Invalid response format from LLM: create_subcategory missing newCategory details"
        else
          let confidence₂ := if confidence₁.isNone then some (4 / 5) else confidence₁
          .ok { action, categoryId := p.categoryId, confidence := confidence₂, reasoning
                newCategory := p.newCategory }
    else
      .ok { action, categoryId := p.categoryId, confidence := confidence₁, reasoning
            newCategory := p.newCategory }

/-- `categorizeExpense` from `llm.ts` (lines 197-425), as a function of the chat
outcome.  The expense and category list feed only the prompt, not the control
flow: there is no vague-merchant short-circuit on this path.  A timeout error is
re-thrown (`.error`) to trigger the durable retries; every other failure becomes
the needs-human-review fallback reply. -/
def llmCategorizeExpense (_expense : ExpenseRow) (_categories : List Category)
    (chat : ChatOutcome) : Except String CategorizationResponse :=
  match chat with
  | .err msg => if isTimeoutMsg msg then .error msg else .ok (errorFallback msg)
  | .ok p =>
    match validateParsedReply p with
    | .ok r => .ok r
    | .error msg => if isTimeoutMsg msg then .error msg else .ok (errorFallback msg)

/-! ## The per-item state machine (`inngest/categorizeExpense.ts`, first copy) -/

/-- The confidence threshold from `inngest/categorizeExpense.ts`. -/
def CONFIDENCE_THRESHOLD : ℚ := 7 / 10

/-- A saved row of the `categorizations` table (fields used by the claims). -/
structure Categorization where
  expenseId : String
  categoryId : String
  confidence : ℚ
  reasoning : String
  amount : ℚ
  date : String
  description : String
  merchant : String
  createdAt : String
  categorizedAt : String
  categorizationSource : String
deriving DecidableEq

/-- The stored suggestion of a review-queue item. -/
structure LlmSuggestion where
  categoryId : Option String
  confidence : Option ℚ
  reasoning : Option String
  newCategory : Option NewCategoryRaw
deriving DecidableEq

/-- A row of the `review_queue` table. -/
structure ReviewItem where
  id : String
  expenseId : String
  runId : String
  reason : String
  suggestion : LlmSuggestion
  status : String
  createdAt : String
  retryCount : ℚ
  retryingAt : Option String
deriving DecidableEq

/-- The workflow-run stat fields `updateRunStats` can be asked to increment. -/
inductive StatField where
  | categorizedCount
  | reviewQueueCount
  | failedCount
deriving DecidableEq

/-- What one terminal step of the state machine writes and emits. -/
structure StepOutcome where
  saved : Option Categorization
  review : Option ReviewItem
  statsIncrement : Option StatField
  eventName : Option String
  categoriesCreated : List Category
deriving DecidableEq

/-- The Amazon test used by `handleNewCategoryRequest` and
`handleObfuscatedMerchant`: merchant or description contains `amazon`
case-insensitively. -/
def isAmazonExpense (expense : ExpenseRow) : Bool :=
  jsIncludes (lowerStr expense.merchant) "amazon"
    || jsIncludes (lowerStr expense.description) "amazon"

/-- `handleHighConfidenceCategorization`: save an automatic categorization
(`categorizationSource: 'auto'`), bump `categorizedCount`, emit the
categorized event. -/
def handleHighConfidenceCategorization (_runId now : String) (expense : ExpenseRow)
    (r : CategorizationResponse) : StepOutcome :=
  { saved := some
      { expenseId := expense.id
        categoryId := r.categoryId.getD ""
        confidence := r.confidence.getD 0
        reasoning := r.reasoning
        amount := expense.amount
        date := expense.date
        description := expense.description
        merchant := expense.merchant
        createdAt := expense.date
        categorizedAt := now
        categorizationSource := "auto" }
    review := none
    statsIncrement := some .categorizedCount
    eventName := some "expenses/expense.categorized"
    categoriesCreated := [] }

/-- `handleLowConfidenceCategorization`: queue the item with reason
`low_confidence`, carrying the suggested category id, confidence and reasoning. -/
def handleLowConfidenceCategorization (runId now : String) (expense : ExpenseRow)
    (r : CategorizationResponse) : StepOutcome :=
  { saved := none
    review := some
      { id := "review_" ++ expense.id
        expenseId := expense.id
        runId := runId
        reason := "low_confidence"
        suggestion :=
          { categoryId := r.categoryId, confidence := r.confidence
            reasoning := some r.reasoning, newCategory := none }
        status := "pending"
        createdAt := now
        retryCount := 0
        retryingAt := none }
    statsIncrement := some .reviewQueueCount
    eventName := some "expenses/expense.needs_review"
    categoriesCreated := [] }

/-- `handleNewCategoryRequest` (`inngest/categorizeExpense.ts` lines 264-371):
look the proposed name up; on a hit, rewrite the suggestion to the existing id
and queue as `duplicate_category_suggested` (or `amazon_should_split` when the
expense looks like Amazon), otherwise queue the genuinely new proposal as
`new_category_suggestion`.  No category row is ever inserted here. -/
def handleNewCategoryRequest (cats : List Category) (runId now : String)
    (expense : ExpenseRow) (r : CategorizationResponse) : StepOutcome :=
  let suggestedName := ((r.newCategory.map (·.name)).getD none).getD ""
  match findCategoryByName cats suggestedName with
  | some existing =>
    let isAmazon := isAmazonExpense expense
    { saved := none
      review := some
        { id := "review_" ++ expense.id
          expenseId := expense.id
          runId := runId
          reason := if isAmazon then "amazon_should_split" else "duplicate_category_suggested"
          suggestion :=
            { categoryId := some existing.id
              confidence := some (if truthyNum r.confidence then r.confidence.getD 0 else 4 / 5)
              reasoning := some ("LLM suggested creating \"" ++ suggestedName
                ++ "\" but it already exists. "
                ++ (if isAmazon then
                  "This is an Amazon purchase - consider splitting into individual items."
                  else "Consider using the existing category or reviewing manually."))
              newCategory := none }
          status := "pending"
          createdAt := now
          retryCount := 0
          retryingAt := none }
      statsIncrement := some .reviewQueueCount
      eventName := some "expenses/expense.needs_review"
      categoriesCreated := [] }
  | none =>
    { saved := none
      review := some
        { id := "review_" ++ expense.id
          expenseId := expense.id
          runId := runId
          reason := "new_category_suggestion"
          suggestion :=
            { categoryId := none, confidence := none
              reasoning := some r.reasoning, newCategory := r.newCategory }
          status := "pending"
          createdAt := now
          retryCount := 0
          retryingAt := none }
      statsIncrement := some .reviewQueueCount
      eventName := some "expenses/expense.needs_review"
      categoriesCreated := [] }

/-- `handleObfuscatedMerchant` (the fall-through handler): queue with reason
`amazon_should_split` when the expense looks like Amazon, else `ambiguous`. -/
def handleObfuscatedMerchant (runId now : String) (expense : ExpenseRow)
    (r : CategorizationResponse) : StepOutcome :=
  let isAmazon := isAmazonExpense expense
  { saved := none
    review := some
      { id := "review_" ++ expense.id
        expenseId := expense.id
        runId := runId
        reason := if isAmazon then "amazon_should_split" else "ambiguous"
        suggestion :=
          { categoryId := none, confidence := none
            reasoning := some (if isAmazon then
              "This is an Amazon purchase. Consider splitting it into individual items for more accurate categorization."
              else r.reasoning)
            newCategory := none }
        status := "pending"
        createdAt := now
        retryCount := 0
        retryingAt := none }
    statsIncrement := some .reviewQueueCount
    eventName := some "expenses/expense.needs_review"
    categoriesCreated := [] }

/-- Step 5 of the inngest `categorizeExpense` function (lines 140-152): route the
classifier response.  The guards are JavaScript truthiness tests, so an absent or
empty `categoryId`, or a confidence of exactly `0`, falls through to the
fall-through handler. -/
def handleLLMResponse (cats : List Category) (runId now : String)
    (expense : ExpenseRow) (r : CategorizationResponse) : StepOutcome :=
  if r.action = "categorize" && truthyStr r.categoryId && truthyNum r.confidence then
    if r.confidence.getD 0 ≥ CONFIDENCE_THRESHOLD then
      handleHighConfidenceCategorization runId now expense r
    else
      handleLowConfidenceCategorization runId now expense r
  else if r.action = "create_subcategory" && r.newCategory.isSome then
    handleNewCategoryRequest cats runId now expense r
  else
    handleObfuscatedMerchant runId now expense r

/-- The classifier call (step 4) followed by the outcome routing (step 5);
`.error` is an exception escaping to the durable layer's retry policy. -/
def categorizeExpensePipeline (cats : List Category) (runId now : String)
    (expense : ExpenseRow) (chat : ChatOutcome) : Except String StepOutcome :=
  (llmCategorizeExpense expense cats chat).map (handleLLMResponse cats runId now expense)

/-! ## Workflow runs (`workflow_runs` table, `updateWorkflowRun`, `getWorkflowRun`,
`updateRunStats`, `trackRunCompletion`) -/

/-- One row of the `workflow_runs` table as created by `initializeTables` and as
returned by `getWorkflowRun`.  The schema has no `failedCount` column, and the
record `getWorkflowRun` builds has no `failedCount` field. -/
structure WorkflowRunRow where
  runId : String
  filePath : String
  csvType : String
  status : String
  totalExpenses : ℚ
  categorizedCount : ℚ
  reviewQueueCount : ℚ
  startedAt : String
  completedAt : Option String
deriving DecidableEq

/-- A `Partial<WorkflowRun>` update object as passed to `updateWorkflowRun`.
`none` is an absent property.  Callers may set `failedCount` (the declared
`WorkflowRun` type has it), but `updateWorkflowRun` never reads it. -/
structure WorkflowRunUpdate where
  status : Option String
  categorizedCount : Option ℚ
  reviewQueueCount : Option ℚ
  completedAt : Option String
  failedCount : Option ℚ
deriving DecidableEq

/-- The empty update. -/
def emptyUpdate : WorkflowRunUpdate :=
  { status := none, categorizedCount := none, reviewQueueCount := none
    completedAt := none, failedCount := none }

/-- `updateWorkflowRun` from `db-operations.ts`: only `status`,
`categorizedCount`, `reviewQueueCount` and `completedAt` are ever written; any
other property of the update object — `failedCount` in particular — is ignored,
and an update with none of the four fields issues no SQL at all. -/
def updateWorkflowRun (row : WorkflowRunRow) (u : WorkflowRunUpdate) : WorkflowRunRow :=
  { row with
    status := u.status.getD row.status
    categorizedCount := u.categorizedCount.getD row.categorizedCount
    reviewQueueCount := u.reviewQueueCount.getD row.reviewQueueCount
    completedAt := match u.completedAt with | some c => some c | none => row.completedAt }

/-- The JavaScript read `run[field]` on the record `getWorkflowRun` returns.
The record has no `failedCount` property, so that read yields `undefined`,
modeled as `none`. -/
def runFieldRead (row : WorkflowRunRow) : StatField → Option ℚ
  | .categorizedCount => some row.categorizedCount
  | .reviewQueueCount => some row.reviewQueueCount
  | .failedCount => none

/-- JavaScript `+` on possibly-undefined numbers: any operand that is
`undefined` (or `NaN`) makes the result `NaN`, collapsed to `none`. -/
def jsAdd : Option ℚ → Option ℚ → Option ℚ
  | some a, some b => some (a + b)
  | _, _ => none

/-- JavaScript `>=` on possibly-NaN numbers: any comparison with `NaN` is false. -/
def jsGe : Option ℚ → Option ℚ → Bool
  | some a, some b => a ≥ b
  | _, _ => false

/-- The update object `{[field]: newValue}` built by `updateRunStats`. -/
def mkStatUpdate : StatField → Option ℚ → WorkflowRunUpdate
  | .categorizedCount, v => { emptyUpdate with categorizedCount := v }
  | .reviewQueueCount, v => { emptyUpdate with reviewQueueCount := v }
  | .failedCount, v => { emptyUpdate with failedCount := v }

/-- `updateRunStats` from `inngest/categorizeExpense.ts` (lines 433-445):
read the run, compute `run[field] + increment`, and write it back through
`updateWorkflowRun`.  For `failedCount` the read is `undefined`, the sum is
`NaN`, and the write is ignored. -/
def updateRunStats (row : WorkflowRunRow) (field : StatField) (increment : ℚ) :
    WorkflowRunRow :=
  let newValue := jsAdd (runFieldRead row field) (some increment)
  updateWorkflowRun row (mkStatUpdate field newValue)

/-- The per-run body of the `check-completions` step in
`inngest/trackRunCompletion.ts` (lines 36-75): skip runs not in `processing`;
otherwise compute `categorizedCount + reviewQueueCount + failedCount` — where
`run.failedCount` is an `undefined` read — and flip the status to
`categorization_done` when the sum reaches `totalExpenses`. -/
def trackRunCompletionCheck (now : String) (row : WorkflowRunRow) : WorkflowRunRow :=
  if row.status ≠ "processing" then row
  else
    let processedCount :=
      jsAdd (jsAdd (some row.categorizedCount) (some row.reviewQueueCount))
        (runFieldRead row .failedCount)
    if jsGe processedCount (some row.totalExpenses) then
      updateWorkflowRun row
        { emptyUpdate with status := some "categorization_done", completedAt := some now }
    else row

/-! ## Exemplar retrieval (`getSimilarCategorizedExpenses`) -/

/-- Levenshtein edit distance, as computed by DuckDB's `levenshtein`. -/
def levenshtein : List Char → List Char → Nat
  | [], t => t.length
  | a :: s, [] => (a :: s).length
  | a :: s, b :: t =>
    if a = b then levenshtein s t
    else 1 + min (levenshtein s (b :: t)) (min (levenshtein (a :: s) t) (levenshtein s t))
termination_by s t => s.length + t.length
decreasing_by all_goals (simp [List.length_cons] <;> omega)

/-- The `CASE` expression scoring one candidate field against the query field:
`1.0` on case-insensitive equality, `0.8` on containment either way, else
`GREATEST(0, 1 - levenshtein / GREATEST(len, len, 1))`. -/
def simScore (cand query : String) : ℚ :=
  let cl := lowerStr cand
  let ql := lowerStr query
  if cl = ql then 1
  else if jsIncludes cl ql then 4 / 5
  else if jsIncludes ql cl then 4 / 5
  else max 0 (1 - (levenshtein cl.data ql.data : ℚ) /
    max (cand.data.length : ℚ) (max (query.data.length : ℚ) 1))

/-- The similarity measure as the spec words it, for comparison with `simScore`:
`sim(a,b) = 1.0` on case-insensitive equality, `0.8` if one string contains the
other, else `max(0, 1 - editDistance(a,b) / max(len(a), len(b), 1))`. -/
def simSpec (a b : String) : ℚ :=
  if lowerStr a = lowerStr b then 1
  else if jsIncludes (lowerStr a) (lowerStr b) || jsIncludes (lowerStr b) (lowerStr a) then 4 / 5
  else max 0 (1 - (levenshtein (lowerStr a).data (lowerStr b).data : ℚ) /
    max (a.data.length : ℚ) (max (b.data.length : ℚ) 1))

/-- A row of the `categorizations` table as read by the similarity query. -/
structure CategorizationRow where
  expenseId : String
  merchant : String
  description : String
  amount : ℚ
  categoryId : String
  reasoning : String
deriving DecidableEq

/-- The `WHERE` pre-filter of the similarity query: substring overlap on merchant
or description in either direction, or merchant edit distance at most 5, or
description edit distance at most 10. -/
def similarPreFilter (merchant description : String) (c : CategorizationRow) : Bool :=
  jsIncludes (lowerStr c.merchant) (lowerStr merchant)
    || jsIncludes (lowerStr merchant) (lowerStr c.merchant)
    || jsIncludes (lowerStr c.description) (lowerStr description)
    || jsIncludes (lowerStr description) (lowerStr c.description)
    || levenshtein (lowerStr c.merchant).data (lowerStr merchant).data ≤ 5
    || levenshtein (lowerStr c.description).data (lowerStr description).data ≤ 10

/-- The blended score: merchant similarity weighted 0.3, description similarity
weighted 0.7. -/
def blendedScore (merchant description : String) (c : CategorizationRow) : ℚ :=
  simScore c.merchant merchant * (3 / 10) + simScore c.description description * (7 / 10)

/-- One returned record of `getSimilarCategorizedExpenses`. -/
structure SimilarCategorizedExpense where
  merchant : String
  description : String
  amount : ℚ
  categoryId : String
  categoryName : String
  similarityScore : ℚ
  reasoning : String
deriving DecidableEq

/-- The default `limit` parameter of `getSimilarCategorizedExpenses`. -/
def defaultSimilarLimit : Nat := 5

/-- `getSimilarCategorizedExpenses` from `db-operations.ts` (lines 796-882):
join categorizations with categories, keep only candidates passing the
pre-filter, order by the blended score descending, and return at most `limit`
records. -/
def getSimilarCategorizedExpenses (cats : List Category) (rows : List CategorizationRow)
    (merchant description : String) (limit : Nat) : List SimilarCategorizedExpense :=
  let joined := rows.filterMap fun c =>
    (cats.find? fun cat => cat.id = c.categoryId).map fun cat =>
      { merchant := c.merchant
        description := c.description
        amount := c.amount
        categoryId := c.categoryId
        categoryName := cat.name
        similarityScore := blendedScore merchant description c
        reasoning := c.reasoning : SimilarCategorizedExpense }
  let filtered := joined.filter fun r =>
    similarPreFilter merchant description
      { expenseId := "", merchant := r.merchant, description := r.description
        amount := r.amount, categoryId := r.categoryId, reasoning := r.reasoning }
  let sorted := filtered.mergeSort fun a b => b.similarityScore ≤ a.similarityScore
  sorted.take limit

/-! ## Retry cascade (`inngest/retryPendingAfterCategoryCreation.ts`) -/

/-- The persistent state the cascade touches. -/
structure SysState where
  categories : List Category
  expenses : List ExpenseRow
  categorizations : List Categorization
  reviewQueue : List ReviewItem
  runs : List WorkflowRunRow
  events : List String
deriving DecidableEq

/-- `getExpense(runId, expenseId)`. -/
def getExpenseS (st : SysState) (runId expenseId : String) : Option ExpenseRow :=
  st.expenses.find? fun e => e.runId = runId && e.id = expenseId

/-- `saveCategorization`: `INSERT OR REPLACE` keyed by `expenseId`. -/
def saveCategorizationS (st : SysState) (c : Categorization) : SysState :=
  if st.categorizations.any fun old => old.expenseId = c.expenseId then
    { st with categorizations :=
        st.categorizations.map fun old => if old.expenseId = c.expenseId then c else old }
  else
    { st with categorizations := st.categorizations ++ [c] }

/-- `resolveReviewQueueItem`: `UPDATE review_queue SET status = 'resolved' WHERE id = ?`. -/
def resolveReviewQueueItemS (st : SysState) (id : String) : SysState :=
  { st with reviewQueue :=
      st.reviewQueue.map fun i => if i.id = id then { i with status := "resolved" } else i }

/-- `getWorkflowRun` on the state. -/
def getWorkflowRunS (st : SysState) (runId : String) : Option WorkflowRunRow :=
  st.runs.find? fun r => r.runId = runId

/-- `updateWorkflowRun` on the state. -/
def updateWorkflowRunS (st : SysState) (runId : String) (u : WorkflowRunUpdate) : SysState :=
  { st with runs := st.runs.map fun r => if r.runId = runId then updateWorkflowRun r u else r }

/-- The items the cascade re-runs: the `pending` review items (as returned by
`getReviewQueue()`) whose reason is `new_category_suggestion` or
`duplicate_category_suggested`. -/
def eligibleRetryItems (st : SysState) : List ReviewItem :=
  (st.reviewQueue.filter fun i => i.status = "pending").filter fun i =>
    i.reason = "new_category_suggestion" || i.reason = "duplicate_category_suggested"

/-- The `retry-item` step body for one review item
(`retryPendingAfterCategoryCreation.ts` lines 63-141).  `oracle` is the
classifier call on the fetched expense with the refreshed category list; an
`.error` is the caught exception (logged, item skipped).  On a high-confidence
`categorize` reply it saves a `retry_auto` categorization, resolves the item,
adjusts the run counters, and emits `review/item.resolved`.  On any other reply
it only logs: the stored suggestion and `retryCount` are left untouched. -/
def retryOneItem (oracle : ExpenseRow → Except String CategorizationResponse)
    (now : String) (st : SysState) (item : ReviewItem) : SysState :=
  match getExpenseS st item.runId item.expenseId with
  | none => st
  | some expense =>
    match oracle expense with
    | .error _ => st
    | .ok r =>
      if r.action = "categorize" && truthyStr r.categoryId && truthyNum r.confidence
          && r.confidence.getD 0 ≥ CONFIDENCE_THRESHOLD then
        let st₁ := saveCategorizationS st
          { expenseId := expense.id
            categoryId := r.categoryId.getD ""
            confidence := r.confidence.getD 0
            reasoning := "Auto-resolved after new category creation: " ++ r.reasoning
            amount := expense.amount
            date := expense.date
            description := expense.description
            merchant := expense.merchant
            createdAt := expense.date
            categorizedAt := now
            categorizationSource := "retry_auto" }
        let st₂ := resolveReviewQueueItemS st₁ item.id
        let st₃ :=
          match getWorkflowRunS st₂ item.runId with
          | none => st₂
          | some run => updateWorkflowRunS st₂ item.runId
              { emptyUpdate with
                categorizedCount := some (run.categorizedCount + 1)
                reviewQueueCount := some (run.reviewQueueCount - 1) }
        { st₃ with events := st₃.events ++ ["review/item.resolved"] }
      else st

/-- `retryPendingAfterCategoryCreation`: fetch the eligible pending items once,
then run the retry step for each in order. -/
def retryPendingAfterCategoryCreation
    (oracle : ExpenseRow → Except String CategorizationResponse) (now : String)
    (st : SysState) : SysState :=
  (eligibleRetryItems st).foldl (retryOneItem oracle now) st

/-! ## Helper lemmas -/

theorem helper_isPrefixOf_append (sub post : List Char) :
    sub.isPrefixOf (sub ++ post) = true := by
  induction sub with
  | nil => simp [List.isPrefixOf]
  | cons a as ih => simp [List.isPrefixOf, ih]

theorem helper_hasInfix_here (sub post : List Char) :
    hasInfixChars sub (sub ++ post) = true := by
  cases hs : sub with
  | nil =>
    cases post with
    | nil => rfl
    | cons c t => simp [hasInfixChars, List.isPrefixOf]
  | cons a as =>
    simp only [List.cons_append, hasInfixChars]
    have := helper_isPrefixOf_append (a :: as) post
    simp only [List.cons_append] at this
    simp [this]

theorem helper_hasInfix_append (pre sub post : List Char) :
    hasInfixChars sub (pre ++ (sub ++ post)) = true := by
  induction pre with
  | nil => simpa using helper_hasInfix_here sub post
  | cons c t ih => simp [hasInfixChars, ih]

theorem helper_hasInfix_of_parts (sub l pre post : List Char)
    (h : l = pre ++ (sub ++ post)) : hasInfixChars sub l = true :=
  h ▸ helper_hasInfix_append pre sub post

/-! ## C1: batch completion is tracked through a `failedCount` that is never
persisted, so the status never transitions -/

/-- C1: the claim states that a processing run's status flips to
`categorization_done` exactly once, at the first completion check at which
`categorizedCount + reviewQueueCount + failedCount ≥ totalExpenses`.  In the
code the `workflow_runs` table has no `failedCount` column and `getWorkflowRun`
returns no `failedCount` field, so the sum the check computes is `NaN` and the
comparison is always false: the completion check is the identity on every run
row and the promised transition never happens.  (Runs not in `processing` are
skipped, so no transition ever moves a status back, vacuously.) -/
theorem trackRunCompletionCheck_never_transitions (now : String) (row : WorkflowRunRow) :
    trackRunCompletionCheck now row = row := by
  unfold trackRunCompletionCheck
  split
  · rfl
  · rfl

/-! ## C10: `updateWorkflowRun` persists only the four declared fields -/

/-- C10: `updateWorkflowRun` persists only `status`, `categorizedCount`,
`reviewQueueCount` and `completedAt`; an update carrying only `failedCount`
(as produced by the classifier-failure handler through `updateRunStats`) leaves
the stored row completely unchanged, and the record `getWorkflowRun` returns has
no persisted `failedCount` value for the completion check to read. -/
theorem updateWorkflowRun_ignores_failedCount (row : WorkflowRunRow) (q inc : ℚ) :
    updateWorkflowRun row { emptyUpdate with failedCount := some q } = row ∧
    updateRunStats row .failedCount inc = row ∧
    runFieldRead row .failedCount = none :=
  ⟨rfl, rfl, rfl⟩

/-! ## C3: split validation -/

/-- C3: child rows are created if and only if the child amounts sum to the
parent amount within the one-cent tolerance; when the difference exceeds 0.01
the call returns the validation error — whose message contains the rendered
computed sum and the rendered difference — and the expense table is unchanged. -/
theorem createSubExpenses_amount_invariant (idGen : Nat → String)
    (table : List ExpenseRow) (parent : ExpenseRow) (splits : List SubExpenseSplit) :
    (|sumAmounts (splits.map (·.amount)) - parent.amount| ≤ tolerance →
      createSubExpenses idGen table parent splits =
        (table ++ splits.enum.map fun p => mkSubExpense idGen parent p.1 p.2,
         Except.ok ((splits.enum.map fun p => mkSubExpense idGen parent p.1 p.2).map (·.id)))) ∧
    (tolerance < |sumAmounts (splits.map (·.amount)) - parent.amount| →
      createSubExpenses idGen table parent splits =
        (table, Except.error
          (subExpenseSumMessage (sumAmounts (splits.map (·.amount))) parent.amount)) ∧
      jsIncludes (subExpenseSumMessage (sumAmounts (splits.map (·.amount))) parent.amount)
        (toFixed2 (sumAmounts (splits.map (·.amount)))) = true ∧
      jsIncludes (subExpenseSumMessage (sumAmounts (splits.map (·.amount))) parent.amount)
        (toFixed2 (|sumAmounts (splits.map (·.amount)) - parent.amount|)) = true) := by
  constructor
  · intro h
    have hn : ¬ (|sumAmounts (splits.map (·.amount)) - parent.amount| > tolerance) :=
      not_lt.mpr h
    unfold createSubExpenses validateSubExpenseSums
    rw [if_neg hn]
  · intro h
    refine ⟨?_, ?_, ?_⟩
    · unfold createSubExpenses validateSubExpenseSums
      rw [if_pos h]
    · unfold jsIncludes
      refine helper_hasInfix_of_parts _ _ "Sub-expense amounts ($".data
        ((") do not sum to parent expense amount ($" ++ toFixed2 parent.amount
          ++ "). Difference: $"
          ++ toFixed2 (|sumAmounts (splits.map (·.amount)) - parent.amount|)).data) ?_
      simp [subExpenseSumMessage, String.data_append, List.append_assoc]
    · unfold jsIncludes
      refine helper_hasInfix_of_parts _ _
        (("Sub-expense amounts ($" ++ toFixed2 (sumAmounts (splits.map (·.amount)))
          ++ ") do not sum to parent expense amount ($" ++ toFixed2 parent.amount
          ++ "). Difference: $").data) [] ?_
      simp [subExpenseSumMessage, String.data_append, List.append_assoc]

/-- A concrete 10.00 parent expense for evaluating the split validator. -/
def demoParent : ExpenseRow :=
  { id := "exp_p", runId := "run1", date := "2024-01-05", description := "electronics order"
    amount := 10, merchant := "WebStore", source := "credit_card"
    parentExpenseId := none, isSubExpense := false }

/-- A split within the one-cent tolerance: 6.00 + 4.005. -/
def demoSplitsOk : List SubExpenseSplit :=
  [⟨"cable", 6, none⟩, ⟨"adapter", 4 + 5 / 1000, none⟩]

/-- A split beyond the tolerance: 6.00 + 4.02. -/
def demoSplitsBad : List SubExpenseSplit :=
  [⟨"cable", 6, none⟩, ⟨"adapter", 4 + 2 / 100, none⟩]

/-- Witness for C3 at concrete inputs: a two-way split of a 10.00 parent into
6.00 + 4.005 is within tolerance and creates the children, while 6.00 + 4.02
exceeds it and is rejected with the message containing both renderings. -/
theorem createSubExpenses_amount_invariant_witness :
    createSubExpenses (fun _ => "g") [] demoParent demoSplitsOk =
      ([] ++ demoSplitsOk.enum.map fun p => mkSubExpense (fun _ => "g") demoParent p.1 p.2,
       Except.ok ((demoSplitsOk.enum.map fun p =>
         mkSubExpense (fun _ => "g") demoParent p.1 p.2).map (·.id))) ∧
    (createSubExpenses (fun _ => "g") [] demoParent demoSplitsBad =
      ([], Except.error
        (subExpenseSumMessage (sumAmounts (demoSplitsBad.map (·.amount))) demoParent.amount)) ∧
     jsIncludes (subExpenseSumMessage (sumAmounts (demoSplitsBad.map (·.amount))) demoParent.amount)
       (toFixed2 (sumAmounts (demoSplitsBad.map (·.amount)))) = true ∧
     jsIncludes (subExpenseSumMessage (sumAmounts (demoSplitsBad.map (·.amount))) demoParent.amount)
       (toFixed2 (|sumAmounts (demoSplitsBad.map (·.amount)) - demoParent.amount|)) = true) :=
  ⟨(createSubExpenses_amount_invariant (fun _ => "g") [] demoParent demoSplitsOk).1 (by
      have hs : sumAmounts (demoSplitsOk.map (·.amount)) - demoParent.amount = 5 / 1000 := by
        simp [sumAmounts, demoSplitsOk, demoParent, List.foldl]
        norm_num
      rw [hs, abs_of_nonneg (by norm_num)]
      norm_num [tolerance]),
   (createSubExpenses_amount_invariant (fun _ => "g") [] demoParent demoSplitsBad).2 (by
      have hs : sumAmounts (demoSplitsBad.map (·.amount)) - demoParent.amount = 2 / 100 := by
        simp [sumAmounts, demoSplitsBad, demoParent, List.foldl]
        norm_num
      rw [hs, abs_of_nonneg (by norm_num)]
      norm_num [tolerance])⟩

/-! ## C5: identity derivation hashes the raw, un-normalized field concatenation -/

/-- A credit-card row whose description carries a double space. -/
def ccRowA : CreditCardRow :=
  ⟨some "2024-01-05", some "COFFEE  SHOP", some "4.5", some "SQ COFFEE"⟩

/-- The same logical row with the whitespace collapsed in the description. -/
def ccRowB : CreditCardRow :=
  ⟨some "2024-01-05", some "COFFEE SHOP", some "4.5", some "SQ COFFEE"⟩

/-- A bank-statement row whose description carries a double space. -/
def bsRowA : BankStatementRow :=
  ⟨some "2024-01-05", some "COFFEE  SHOP", some "4.5"⟩

/-- The same logical bank-statement row with the whitespace collapsed. -/
def bsRowB : BankStatementRow :=
  ⟨some "2024-01-05", some "COFFEE SHOP", some "4.5"⟩

/-- C5 counterexample: both ingestion paths hash the raw concatenation
`COALESCE(Date,'') || COALESCE(Description,'') || ...`, not the
whitespace-collapsed, trimmed concatenation the claim describes.  On either
path, two rows that agree after normalization — so the claim assigns them one
id — feed different strings to the hash. -/
theorem creditCardHashInput_not_normalized :
    creditCardHashInput ccRowA ≠ specClaimHashInput ccRowA ∧
    specClaimHashInput ccRowA = specClaimHashInput ccRowB ∧
    creditCardHashInput ccRowA ≠ creditCardHashInput ccRowB ∧
    bankStatementHashInput bsRowA ≠ specClaimBankHashInput bsRowA ∧
    specClaimBankHashInput bsRowA = specClaimBankHashInput bsRowB ∧
    bankStatementHashInput bsRowA ≠ bankStatementHashInput bsRowB := by
  decide

/-- C5 amended: the derived id is `exp_` followed by the hash of the raw
(un-normalized) concatenation of the row's NULL-coalesced fields — date,
description, amount and statement descriptor for credit-card rows; date,
description and amount only for bank-statement rows, whose stored merchant
column is a copy of the stored description.  Deriving the id twice for
identical coalesced field values yields an identical id, and rows differing in
exactly one coalesced field feed different strings to the hash (hence receive
different ids, up to hash collisions). -/
theorem creditCardId_raw_concat (md5hex : String → String) (r₁ r₂ : CreditCardRow)
    (b₁ b₂ : BankStatementRow) :
    (creditCardId md5hex r₁ = "exp_" ++ md5hex (creditCardHashInput r₁)) ∧
    (coalesceStr r₁.dateStr = coalesceStr r₂.dateStr →
      coalesceStr r₁.description = coalesceStr r₂.description →
      coalesceStr r₁.amountStr = coalesceStr r₂.amountStr →
      coalesceStr r₁.statementAs = coalesceStr r₂.statementAs →
      creditCardId md5hex r₁ = creditCardId md5hex r₂) ∧
    (coalesceStr r₁.description = coalesceStr r₂.description →
      coalesceStr r₁.amountStr = coalesceStr r₂.amountStr →
      coalesceStr r₁.statementAs = coalesceStr r₂.statementAs →
      coalesceStr r₁.dateStr ≠ coalesceStr r₂.dateStr →
      creditCardHashInput r₁ ≠ creditCardHashInput r₂) ∧
    (coalesceStr r₁.dateStr = coalesceStr r₂.dateStr →
      coalesceStr r₁.amountStr = coalesceStr r₂.amountStr →
      coalesceStr r₁.statementAs = coalesceStr r₂.statementAs →
      coalesceStr r₁.description ≠ coalesceStr r₂.description →
      creditCardHashInput r₁ ≠ creditCardHashInput r₂) ∧
    (coalesceStr r₁.dateStr = coalesceStr r₂.dateStr →
      coalesceStr r₁.description = coalesceStr r₂.description →
      coalesceStr r₁.statementAs = coalesceStr r₂.statementAs →
      coalesceStr r₁.amountStr ≠ coalesceStr r₂.amountStr →
      creditCardHashInput r₁ ≠ creditCardHashInput r₂) ∧
    (coalesceStr r₁.dateStr = coalesceStr r₂.dateStr →
      coalesceStr r₁.description = coalesceStr r₂.description →
      coalesceStr r₁.amountStr = coalesceStr r₂.amountStr →
      coalesceStr r₁.statementAs ≠ coalesceStr r₂.statementAs →
      creditCardHashInput r₁ ≠ creditCardHashInput r₂) ∧
    (bankStatementId md5hex b₁ = "exp_" ++ md5hex (bankStatementHashInput b₁)) ∧
    (coalesceStr b₁.postingDateStr = coalesceStr b₂.postingDateStr →
      coalesceStr b₁.description = coalesceStr b₂.description →
      coalesceStr b₁.amountStr = coalesceStr b₂.amountStr →
      bankStatementId md5hex b₁ = bankStatementId md5hex b₂) ∧
    (coalesceStr b₁.description = coalesceStr b₂.description →
      coalesceStr b₁.amountStr = coalesceStr b₂.amountStr →
      coalesceStr b₁.postingDateStr ≠ coalesceStr b₂.postingDateStr →
      bankStatementHashInput b₁ ≠ bankStatementHashInput b₂) ∧
    (coalesceStr b₁.postingDateStr = coalesceStr b₂.postingDateStr →
      coalesceStr b₁.amountStr = coalesceStr b₂.amountStr →
      coalesceStr b₁.description ≠ coalesceStr b₂.description →
      bankStatementHashInput b₁ ≠ bankStatementHashInput b₂) ∧
    (coalesceStr b₁.postingDateStr = coalesceStr b₂.postingDateStr →
      coalesceStr b₁.description = coalesceStr b₂.description →
      coalesceStr b₁.amountStr ≠ coalesceStr b₂.amountStr →
      bankStatementHashInput b₁ ≠ bankStatementHashInput b₂) ∧
    (bankStatementStoredMerchant b₁ = bankStatementStoredDescription b₁) := by
  refine ⟨rfl, ?_, ?_, ?_, ?_, ?_, rfl, ?_, ?_, ?_, ?_, rfl⟩
  · intro h₁ h₂ h₃ h₄
    unfold creditCardId creditCardHashInput
    rw [h₁, h₂, h₃, h₄]
  · intro h₂ h₃ h₄ hne heq
    apply hne
    have hd := congrArg String.data heq
    simp only [creditCardHashInput, String.data_append] at hd
    rw [h₂, h₃, h₄, List.append_assoc, List.append_assoc, List.append_assoc,
      List.append_assoc] at hd
    exact String.ext (List.append_cancel_right hd)
  · intro h₁ h₃ h₄ hne heq
    apply hne
    have hd := congrArg String.data heq
    simp only [creditCardHashInput, String.data_append] at hd
    rw [h₁, h₃, h₄, List.append_assoc, List.append_assoc, List.append_assoc,
      List.append_assoc] at hd
    have hd₂ := List.append_cancel_left hd
    exact String.ext (List.append_cancel_right hd₂)
  · intro h₁ h₂ h₄ hne heq
    apply hne
    have hd := congrArg String.data heq
    simp only [creditCardHashInput, String.data_append] at hd
    rw [h₁, h₂, h₄, List.append_assoc, List.append_assoc, List.append_assoc,
      List.append_assoc] at hd
    have hd₂ := List.append_cancel_left (List.append_cancel_left hd)
    exact String.ext (List.append_cancel_right hd₂)
  · intro h₁ h₂ h₃ hne heq
    apply hne
    have hd := congrArg String.data heq
    simp only [creditCardHashInput, String.data_append] at hd
    rw [h₁, h₂, h₃, List.append_assoc, List.append_assoc, List.append_assoc,
      List.append_assoc] at hd
    have hd₂ := List.append_cancel_left hd
    have hd₃ := List.append_cancel_left hd₂
    have hd₄ := List.append_cancel_left hd₃
    exact String.ext hd₄
  · intro h₁ h₂ h₃
    unfold bankStatementId bankStatementHashInput
    rw [h₁, h₂, h₃]
  · intro h₂ h₃ hne heq
    apply hne
    have hd := congrArg String.data heq
    simp only [bankStatementHashInput, String.data_append] at hd
    rw [h₂, h₃, List.append_assoc, List.append_assoc] at hd
    exact String.ext (List.append_cancel_right hd)
  · intro h₁ h₃ hne heq
    apply hne
    have hd := congrArg String.data heq
    simp only [bankStatementHashInput, String.data_append] at hd
    rw [h₁, h₃, List.append_assoc, List.append_assoc] at hd
    have hd₂ := List.append_cancel_left hd
    exact String.ext (List.append_cancel_right hd₂)
  · intro h₁ h₂ hne heq
    apply hne
    have hd := congrArg String.data heq
    simp only [bankStatementHashInput, String.data_append] at hd
    rw [h₁, h₂] at hd
    exact String.ext (List.append_cancel_left hd)

/-- Witness for C5's amended theorem at concrete rows: on both ingestion paths,
identical field values give identical ids, and changing only the description
changes the hash input. -/
theorem creditCardId_raw_concat_witness :
    creditCardId (fun s => s) ccRowA = creditCardId (fun s => s) ccRowA ∧
    creditCardHashInput ccRowA ≠ creditCardHashInput ccRowB ∧
    bankStatementId (fun s => s) bsRowA = bankStatementId (fun s => s) bsRowA ∧
    bankStatementHashInput bsRowA ≠ bankStatementHashInput bsRowB :=
  ⟨(creditCardId_raw_concat (fun s => s) ccRowA ccRowA bsRowA bsRowA).2.1 rfl rfl rfl rfl,
   (creditCardId_raw_concat (fun s => s) ccRowA ccRowB bsRowA bsRowA).2.2.2.1
      rfl rfl rfl (by decide),
   (creditCardId_raw_concat (fun s => s) ccRowA ccRowA bsRowA bsRowA).2.2.2.2.2.2.2.1
      rfl rfl rfl,
   (creditCardId_raw_concat (fun s => s) ccRowA ccRowA bsRowA bsRowB).2.2.2.2.2.2.2.2.2.1
      rfl rfl (by decide)⟩

/-! ## C2: the 0.70 confidence threshold -/

/-- A concrete non-vague expense. -/
def starbucksExp : ExpenseRow :=
  { id := "exp_s", runId := "run1", date := "2024-01-05", description := "Latte"
    amount := 5, merchant := "Starbucks", source := "credit_card"
    parentExpenseId := none, isSubExpense := false }

/-- A `categorize` reply with a category id and confidence exactly `0`. -/
def zeroConfResp : CategorizationResponse :=
  { action := "categorize", categoryId := some "c9", confidence := some 0
    reasoning := "maybe coffee", newCategory := none }

/-- C2 counterexample: a `categorize` outcome carrying a category id and the
confidence value `0` — which is below 0.70 — is routed by the JavaScript
truthiness guard to the fall-through handler and queued with reason
`ambiguous`, not `low_confidence` as the claim states, and nothing is saved. -/
theorem categorize_zero_confidence_not_low_confidence :
    zeroConfResp.action = "categorize" ∧ zeroConfResp.confidence = some 0 ∧
    (handleLLMResponse [] "run1" "t0" starbucksExp zeroConfResp).review.map (·.reason) =
      some "ambiguous" ∧
    (handleLLMResponse [] "run1" "t0" starbucksExp zeroConfResp).review.map (·.reason) ≠
      some "low_confidence" ∧
    (handleLLMResponse [] "run1" "t0" starbucksExp zeroConfResp).saved = none := by
  decide

/-- C2 amended: for a `categorize` outcome with a nonempty category id and a
nonzero confidence, an automatic categorization (`source = auto`) is saved if
and only if the confidence is at least 0.70 (exactly 0.70 is auto-accepted);
any nonzero confidence below 0.70 instead queues a pending review item with
reason `low_confidence` carrying the suggested category id, confidence and
reasoning.  (A confidence of exactly `0` falls through to the ambiguous-merchant
handler instead — see the counterexample.) -/
theorem categorize_threshold_amended (cats : List Category) (runId now : String)
    (expense : ExpenseRow) (r : CategorizationResponse) (cid : String) (conf : ℚ)
    (hact : r.action = "categorize") (hcid : r.categoryId = some cid) (hcid' : cid ≠ "")
    (hconf : r.confidence = some conf) (hconf0 : conf ≠ 0) :
    (CONFIDENCE_THRESHOLD ≤ conf →
      (handleLLMResponse cats runId now expense r).saved = some
        { expenseId := expense.id, categoryId := cid, confidence := conf
          reasoning := r.reasoning, amount := expense.amount, date := expense.date
          description := expense.description, merchant := expense.merchant
          createdAt := expense.date, categorizedAt := now, categorizationSource := "auto" } ∧
      (handleLLMResponse cats runId now expense r).review = none) ∧
    (conf < CONFIDENCE_THRESHOLD →
      (handleLLMResponse cats runId now expense r).saved = none ∧
      (handleLLMResponse cats runId now expense r).review = some
        { id := "review_" ++ expense.id, expenseId := expense.id, runId := runId
          reason := "low_confidence"
          suggestion :=
            { categoryId := some cid, confidence := some conf
              reasoning := some r.reasoning, newCategory := none }
          status := "pending", createdAt := now, retryCount := 0, retryingAt := none }) ∧
    ((handleLLMResponse cats runId now expense r).saved.isSome ↔ CONFIDENCE_THRESHOLD ≤ conf) := by
  have hguard : (r.action = "categorize" && truthyStr r.categoryId && truthyNum r.confidence) = true := by
    rw [hact, hcid, hconf]
    simp [truthyStr, truthyNum, hcid', hconf0]
  have hhigh : ∀ _ : CONFIDENCE_THRESHOLD ≤ conf,
      handleLLMResponse cats runId now expense r =
        handleHighConfidenceCategorization runId now expense r := by
    intro hge
    unfold handleLLMResponse
    rw [if_pos hguard, hconf]
    simp only [Option.getD_some]
    rw [if_pos hge]
  have hlow : ∀ _ : conf < CONFIDENCE_THRESHOLD,
      handleLLMResponse cats runId now expense r =
        handleLowConfidenceCategorization runId now expense r := by
    intro hlt
    unfold handleLLMResponse
    rw [if_pos hguard, hconf]
    simp only [Option.getD_some]
    rw [if_neg (not_le.mpr hlt)]
  refine ⟨?_, ?_, ?_⟩
  · intro hge
    rw [hhigh hge]
    unfold handleHighConfidenceCategorization
    rw [hcid, hconf]
    exact ⟨rfl, rfl⟩
  · intro hlt
    rw [hlow hlt]
    unfold handleLowConfidenceCategorization
    rw [hcid, hconf]
    exact ⟨rfl, rfl⟩
  · rcases le_or_lt CONFIDENCE_THRESHOLD conf with hge | hlt
    · rw [hhigh hge]
      simp [handleHighConfidenceCategorization, hge]
    · rw [hlow hlt]
      simp [handleLowConfidenceCategorization, not_le.mpr hlt]

/-- A `categorize` reply at exactly the 0.70 threshold. -/
def highResp : CategorizationResponse :=
  { action := "categorize", categoryId := some "c9", confidence := some (7 / 10)
    reasoning := "good", newCategory := none }

/-- A `categorize` reply at 0.699999. -/
def lowResp : CategorizationResponse :=
  { action := "categorize", categoryId := some "c9"
    confidence := some (699999 / 1000000), reasoning := "meh", newCategory := none }

/-- Witness for C2's amended theorem: confidence exactly 0.70 is auto-saved,
0.699999 is not. -/
theorem categorize_threshold_amended_witness :
    ((handleLLMResponse [] "run1" "t0" starbucksExp highResp).saved.isSome ↔
      CONFIDENCE_THRESHOLD ≤ (7 : ℚ) / 10) ∧
    (handleLLMResponse [] "run1" "t0" starbucksExp lowResp).saved = none :=
  ⟨(categorize_threshold_amended [] "run1" "t0" starbucksExp highResp "c9" (7 / 10)
      rfl rfl (by decide) rfl (by norm_num)).2.2,
   ((categorize_threshold_amended [] "run1" "t0" starbucksExp lowResp "c9" (699999 / 1000000)
      rfl rfl (by decide) rfl (by norm_num)).2.1
      (by norm_num [CONFIDENCE_THRESHOLD])).1⟩

/-! ## C6: duplicate taxonomy proposals -/

/-- A concrete Venmo expense (its counterparty label is on the vague list but
contains no `amazon`). -/
def venmoExp : ExpenseRow :=
  { id := "exp_v", runId := "run1", date := "2024-01-06", description := "dinner with friends"
    amount := 42, merchant := "Venmo", source := "credit_card"
    parentExpenseId := none, isSubExpense := false }

/-- A seed category list containing a `Dining` node. -/
def cats0 : List Category :=
  [{ id := "c9", name := "Dining", description := "food and restaurants", parentId := some "0" }]

/-- A classifier reply proposing a category whose name already exists
(case-insensitively). -/
def dupResp : CategorizationResponse :=
  { action := "create_subcategory", categoryId := none, confidence := some (9 / 10)
    reasoning := "propose dining"
    newCategory := some { name := some "dining", description := some "food", parentId := some "0" } }

/-- C6 counterexample: for a duplicate proposal on an expense whose counterparty
(`Venmo`) matches the vague-identifier list, the claim says the item gets the
should-split reason; the code only tests for the substring `amazon`, so the item
is queued as `duplicate_category_suggested`. -/
theorem duplicate_proposal_venmo_reason :
    isObfuscatedMerchant venmoExp.merchant = true ∧
    (handleLLMResponse cats0 "run1" "t0" venmoExp dupResp).review.map (·.reason) =
      some "duplicate_category_suggested" := by
  decide

/-- C6 amended: a proposal whose name already exists (case-insensitive lookup by
name) is rewritten into a suggestion carrying the existing node's id and queued
with reason `duplicate_category_suggested` — or `amazon_should_split` exactly
when the merchant or description contains `amazon` case-insensitively, not for
the other vague identifiers; a genuinely new name is queued as
`new_category_suggestion` carrying the proposed node.  In both cases nothing is
saved and no category row is materialized. -/
theorem newCategory_dedup_amended (cats : List Category) (runId now : String)
    (expense : ExpenseRow) (r : CategorizationResponse) (nc : NewCategoryRaw)
    (hact : r.action = "create_subcategory") (hnc : r.newCategory = some nc) :
    (handleLLMResponse cats runId now expense r).saved = none ∧
    (handleLLMResponse cats runId now expense r).categoriesCreated = [] ∧
    (∀ existing, findCategoryByName cats (nc.name.getD "") = some existing →
      (handleLLMResponse cats runId now expense r).review = some
        { id := "review_" ++ expense.id, expenseId := expense.id, runId := runId
          reason := if isAmazonExpense expense then "amazon_should_split"
            else "duplicate_category_suggested"
          suggestion :=
            { categoryId := some existing.id
              confidence := some (if truthyNum r.confidence then r.confidence.getD 0 else 4 / 5)
              reasoning := some ("LLM suggested creating \"" ++ nc.name.getD ""
                ++ "\" but it already exists. "
                ++ (if isAmazonExpense expense then
                  "This is an Amazon purchase - consider splitting into individual items."
                  else "Consider using the existing category or reviewing manually."))
              newCategory := none }
          status := "pending", createdAt := now, retryCount := 0, retryingAt := none }) ∧
    (findCategoryByName cats (nc.name.getD "") = none →
      (handleLLMResponse cats runId now expense r).review = some
        { id := "review_" ++ expense.id, expenseId := expense.id, runId := runId
          reason := "new_category_suggestion"
          suggestion :=
            { categoryId := none, confidence := none
              reasoning := some r.reasoning, newCategory := some nc }
          status := "pending", createdAt := now, retryCount := 0, retryingAt := none }) := by
  have hdisp : handleLLMResponse cats runId now expense r =
      handleNewCategoryRequest cats runId now expense r := by
    unfold handleLLMResponse
    rw [hact, hnc]
    simp
  rw [hdisp]
  unfold handleNewCategoryRequest
  rw [hnc]
  simp only [Option.map_some, Option.getD_some]
  refine ⟨?_, ?_, ?_, ?_⟩
  · cases h : findCategoryByName cats (nc.name.getD "") <;> simp [h]
  · cases h : findCategoryByName cats (nc.name.getD "") <;> simp [h]
  · intro existing h
    simp [h]
  · intro h
    simp [h]

/-- Witness for C6's amended theorem at the concrete Venmo expense: the found
branch rewrites the suggestion to the existing `Dining` node's id, and an
unknown name queues a new-category suggestion. -/
theorem newCategory_dedup_amended_witness :
    (handleLLMResponse cats0 "run1" "t0" venmoExp dupResp).saved = none ∧
    (handleLLMResponse cats0 "run1" "t0" venmoExp dupResp).categoriesCreated = [] :=
  ⟨(newCategory_dedup_amended cats0 "run1" "t0" venmoExp dupResp
      { name := some "dining", description := some "food", parentId := some "0" } rfl rfl).1,
   (newCategory_dedup_amended cats0 "run1" "t0" venmoExp dupResp
      { name := some "dining", description := some "food", parentId := some "0" } rfl rfl).2.1⟩

/-! ## C7: there is no vague-merchant short circuit around the classifier -/

/-- A parsed classifier reply categorizing confidently. -/
def venmoReply : ParsedReply :=
  { action := some "categorize", categoryId := some "c9", confidence := some (9 / 10)
    reasoning := some "looks like dining", newCategory := none }

/-- C7 counterexample: for an expense whose counterparty (`Venmo`) matches the
vague-identifier list, the claim says classification short-circuits to the
queued ambiguous outcome with no classifier call; in the code the classifier is
called and its reply decides the outcome — here a confident `categorize` reply
ends in an automatic categorization, with no review item at all. -/
theorem vague_merchant_still_classified :
    isObfuscatedMerchant venmoExp.merchant = true ∧
    (categorizeExpensePipeline cats0 "run1" "t0" venmoExp (.ok venmoReply)).toOption.map
      (fun o => (o.saved.isSome, o.review.isNone)) = some (true, true) := by
  constructor
  · decide
  · have hllm : llmCategorizeExpense venmoExp cats0 (.ok venmoReply) =
        .ok { action := "categorize", categoryId := some "c9", confidence := some (9 / 10)
              reasoning := "looks like dining", newCategory := none } := by
      unfold llmCategorizeExpense validateParsedReply venmoReply
      simp [truthyStr]
    unfold categorizeExpensePipeline
    rw [hllm]
    have hguard : (("categorize" : String) = "categorize" && truthyStr (some "c9")
        && truthyNum (some ((9 : ℚ) / 10))) = true := by
      simp [truthyStr, truthyNum]
    show ((Except.ok (handleLLMResponse cats0 "run1" "t0" venmoExp
        { action := "categorize", categoryId := some "c9", confidence := some (9 / 10)
          reasoning := "looks like dining", newCategory := none }) :
        Except String StepOutcome)).toOption.map
      (fun o => (o.saved.isSome, o.review.isNone)) = some (true, true)
    unfold handleLLMResponse
    rw [if_pos hguard]
    simp only [Option.getD_some]
    rw [if_pos (show CONFIDENCE_THRESHOLD ≤ (9 : ℚ) / 10 by norm_num [CONFIDENCE_THRESHOLD])]
    rfl

/-- C7 amended: the vague-identifier helper `isObfuscatedMerchant` exists with
the configured list, but the classification path in force (`llm.ts` lines
197-425) never consults it: the classifier is called for every expense, a
confident `categorize` reply is auto-saved even when the counterparty is on the
vague list, and the queued ambiguous outcome arises only from the classifier's
own `needs_human_review` reply — with reason `ambiguous`, or
`amazon_should_split` when the merchant or description contains `amazon`. -/
theorem vagueMerchant_no_shortcircuit (cats : List Category) (runId now : String)
    (expense : ExpenseRow) :
    (∀ cid conf reason, isObfuscatedMerchant expense.merchant = true → cid ≠ "" →
      reason ≠ "" → CONFIDENCE_THRESHOLD ≤ conf →
      ∃ out, categorizeExpensePipeline cats runId now expense
          (.ok { action := some "categorize", categoryId := some cid
                 confidence := some conf, reasoning := some reason, newCategory := none }) =
            .ok out ∧
        out.saved.isSome = true ∧ out.review = none) ∧
    (∀ r : CategorizationResponse, r.action = "needs_human_review" →
      (handleLLMResponse cats runId now expense r).saved = none ∧
      (handleLLMResponse cats runId now expense r).review.map (·.reason) =
        some (if isAmazonExpense expense then "amazon_should_split" else "ambiguous")) := by
  constructor
  · intro cid conf reason _ hcid hreason hge
    have hllm : llmCategorizeExpense expense cats
        (.ok { action := some "categorize", categoryId := some cid
               confidence := some conf, reasoning := some reason, newCategory := none }) =
        .ok { action := "categorize", categoryId := some cid, confidence := some conf
              reasoning := reason, newCategory := none } := by
      unfold llmCategorizeExpense validateParsedReply
      simp [truthyStr, hreason]
    have hconf0 : conf ≠ 0 := by
      intro h0
      rw [h0] at hge
      norm_num [CONFIDENCE_THRESHOLD] at hge
    have hguard : (("categorize" : String) = "categorize" && truthyStr (some cid)
        && truthyNum (some conf)) = true := by
      simp [truthyStr, truthyNum, hcid, hconf0]
    have hstep : handleLLMResponse cats runId now expense
        { action := "categorize", categoryId := some cid, confidence := some conf
          reasoning := reason, newCategory := none } =
        handleHighConfidenceCategorization runId now expense
        { action := "categorize", categoryId := some cid, confidence := some conf
          reasoning := reason, newCategory := none } := by
      unfold handleLLMResponse
      rw [if_pos hguard]
      simp only [Option.getD_some]
      rw [if_pos hge]
    refine ⟨handleLLMResponse cats runId now expense
      { action := "categorize", categoryId := some cid, confidence := some conf
        reasoning := reason, newCategory := none }, ?_, ?_, ?_⟩
    · unfold categorizeExpensePipeline
      rw [hllm]
      rfl
    · rw [hstep]
      rfl
    · rw [hstep]
      rfl
  · intro r hact
    have hdisp : handleLLMResponse cats runId now expense r =
        handleObfuscatedMerchant runId now expense r := by
      unfold handleLLMResponse
      rw [hact]
      simp
    rw [hdisp]
    unfold handleObfuscatedMerchant
    cases h : isAmazonExpense expense <;> simp [h]

/-- Witness for C7's amended theorem at the concrete Venmo expense. -/
theorem vagueMerchant_no_shortcircuit_witness :
    (∃ out, categorizeExpensePipeline cats0 "run1" "t0" venmoExp
        (.ok { action := some "categorize", categoryId := some "c9"
               confidence := some (9 / 10), reasoning := some "looks like dining"
               newCategory := none }) = .ok out ∧
      out.saved.isSome = true ∧ out.review = none) :=
  (vagueMerchant_no_shortcircuit cats0 "run1" "t0" venmoExp).1 "c9" (9 / 10)
    "looks like dining" (by decide) (by decide) (by decide) (by norm_num [CONFIDENCE_THRESHOLD])

/-! ## C4: sibling-name deduplication is not enforced on every creation path -/

/-- A seed category table with one `Coffee` node under parent `0`. -/
def seededCats : List Category :=
  [{ id := "c1", name := "Coffee", description := "coffee stuff", parentId := some "0" }]

/-- C4 counterexample: the direct create-category endpoint performs no lookup at
all, so creating `coffee` under the same parent as the existing `Coffee`
succeeds and leaves two siblings sharing a case-insensitive name —
contradicting the claim that every creating operation looks up first and that
the invariant holds after any sequence of operations. -/
theorem handleCreateCategory_breaks_dedup :
    ¬ noDupSiblings (handleCreateCategory seededCats "c2" "coffee" "dup" "0").1 ∧
    (handleCreateCategory seededCats "c2" "coffee" "dup" "0").2 = .ok "c2" := by
  exact ⟨by decide, rfl⟩

/-- C4 amended: the review-resolution path does dedupe — when a node with the
same case-insensitive name under the same (non-null) parent exists it returns
the existing id and inserts nothing, and that path preserves the
no-duplicate-siblings invariant — but the direct create-category endpoint
(`handleCreateCategory`) inserts unconditionally after its required-fields
check, so the invariant does not hold across all operations. -/
theorem taxonomy_dedup_amended (cats : List Category) (freshId : String)
    (nc : NewCategoryRequest) :
    (∀ existing, findCategoryByNameAndParent cats nc.name nc.parentId = some existing →
      handleNormalCategorizationNewCategory cats freshId nc = (cats, existing.id)) ∧
    (findCategoryByNameAndParent cats nc.name nc.parentId = none →
      handleNormalCategorizationNewCategory cats freshId nc =
        (cats ++ [⟨freshId, nc.name, nc.description, nc.parentId⟩], freshId)) ∧
    (noDupSiblings cats → ∀ p, nc.parentId = some p →
      noDupSiblings (handleNormalCategorizationNewCategory cats freshId nc).1) ∧
    (∀ name desc pid, name ≠ "" → desc ≠ "" → pid ≠ "" →
      (handleCreateCategory cats freshId name desc pid).1 =
        cats ++ [⟨freshId, name, desc, some pid⟩]) := by
  refine ⟨?_, ?_, ?_, ?_⟩
  · intro existing h
    unfold handleNormalCategorizationNewCategory
    rw [h]
  · intro h
    unfold handleNormalCategorizationNewCategory
    rw [h]
    rfl
  · intro hinv p hp
    unfold handleNormalCategorizationNewCategory
    cases h : findCategoryByNameAndParent cats nc.name nc.parentId with
    | some existing => exact hinv
    | none =>
      show noDupSiblings (createCategory cats ⟨freshId, nc.name, nc.description, nc.parentId⟩)
      unfold createCategory noDupSiblings
      rw [List.pairwise_append]
      refine ⟨hinv, by simp, ?_⟩
      intro a ha b hb
      rw [List.mem_singleton] at hb
      subst hb
      rintro ⟨hname, hparent⟩
      have hfind := List.find?_eq_none.mp h a ha
      apply hfind
      rw [Bool.and_eq_true]
      constructor
      · simpa using hname
      · rw [hparent, hp]
        simp [sqlEqOpt]
  · intro name desc pid hn hd hp
    unfold handleCreateCategory
    rw [if_neg (by simp [hn, hd, hp])]
    rfl

/-- Witness for C4's amended theorem on the seeded table: proposing `COFFEE`
under parent `0` through the review path reuses node `c1` and keeps the
invariant. -/
theorem taxonomy_dedup_amended_witness :
    handleNormalCategorizationNewCategory seededCats "c3"
      ⟨"COFFEE", "more coffee", some "0"⟩ = (seededCats, "c1") ∧
    noDupSiblings (handleNormalCategorizationNewCategory seededCats "c3"
      ⟨"COFFEE", "more coffee", some "0"⟩).1 :=
  ⟨(taxonomy_dedup_amended seededCats "c3" ⟨"COFFEE", "more coffee", some "0"⟩).1
      { id := "c1", name := "Coffee", description := "coffee stuff", parentId := some "0" }
      (by decide),
   (taxonomy_dedup_amended seededCats "c3" ⟨"COFFEE", "more coffee", some "0"⟩).2.2.1
      (by decide) "0" rfl⟩

/-! ## C8: the retry cascade -/

/-- A pending new-category-suggestion review item. -/
def pendingItem : ReviewItem :=
  { id := "review_e1", expenseId := "e1", runId := "run1"
    reason := "new_category_suggestion"
    suggestion :=
      { categoryId := none, confidence := none, reasoning := some "orig"
        newCategory := some { name := some "Pets", description := some "pet supplies"
                              parentId := some "0" } }
    status := "pending", createdAt := "t0", retryCount := 0, retryingAt := none }

/-- The expense behind `pendingItem`. -/
def chewyExp : ExpenseRow :=
  { id := "e1", runId := "run1", date := "2024-01-07", description := "dog food"
    amount := 20, merchant := "Chewy", source := "credit_card"
    parentExpenseId := none, isSubExpense := false }

/-- A state with one eligible pending item. -/
def st0 : SysState :=
  { categories := [], expenses := [chewyExp], categorizations := []
    reviewQueue := [pendingItem], runs := [], events := [] }

/-- A classifier that is still inconclusive on the re-run. -/
def inconclusiveOracle : ExpenseRow → Except String CategorizationResponse :=
  fun _ => .ok { action := "needs_human_review", categoryId := none, confidence := none
                 reasoning := "still unsure", newCategory := none }

/-- C8 counterexample: when the re-run after a category creation is still
inconclusive, the claim says the cascade replaces the stored suggestion and
increments `retryCount`; the cascade's inconclusive branch only logs, so the
state is exactly unchanged — the item keeps `retryCount` 0 and its original
suggestion. -/
theorem retryCascade_inconclusive_leaves_item_untouched :
    retryPendingAfterCategoryCreation inconclusiveOracle "t1" st0 = st0 ∧
    (retryPendingAfterCategoryCreation inconclusiveOracle "t1" st0).reviewQueue.map
      (·.retryCount) = [0] ∧
    (retryPendingAfterCategoryCreation inconclusiveOracle "t1" st0).reviewQueue.map
      (·.suggestion) = [pendingItem.suggestion] := by
  refine ⟨?_, ?_, ?_⟩ <;> decide

theorem helper_saveCat_events (st : SysState) (c : Categorization) :
    (saveCategorizationS st c).events = st.events := by
  unfold saveCategorizationS
  split <;> rfl

theorem helper_saveCat_reviewQueue (st : SysState) (c : Categorization) :
    (saveCategorizationS st c).reviewQueue = st.reviewQueue := by
  unfold saveCategorizationS
  split <;> rfl

/-- C8 amended: the cascade re-runs exactly the pending review items whose
reason is `new_category_suggestion` or `duplicate_category_suggested`.  For an
item whose re-run yields `categorize` with a nonempty category id and
confidence at least 0.70, it writes a categorization with source `retry_auto`,
marks the review item resolved, and emits the `review/item.resolved` event.
For an item whose re-run is still inconclusive it changes nothing at all — in
particular it does not replace the stored suggestion and does not increment
`retryCount` (that behavior belongs to the separate manual-retry workflow). -/
theorem retryCascade_amended (oracle : ExpenseRow → Except String CategorizationResponse)
    (now : String) (st : SysState) :
    (retryPendingAfterCategoryCreation oracle now st =
      ((st.reviewQueue.filter fun i => i.status = "pending").filter fun i =>
        i.reason = "new_category_suggestion" ||
          i.reason = "duplicate_category_suggested").foldl (retryOneItem oracle now) st) ∧
    (∀ item expense r cid conf,
      getExpenseS st item.runId item.expenseId = some expense →
      oracle expense = .ok r → r.action = "categorize" → r.categoryId = some cid →
      cid ≠ "" → r.confidence = some conf → CONFIDENCE_THRESHOLD ≤ conf →
      (∃ c ∈ (retryOneItem oracle now st item).categorizations,
        c.expenseId = expense.id ∧ c.categoryId = cid ∧ c.confidence = conf ∧
        c.categorizationSource = "retry_auto") ∧
      (∀ i ∈ (retryOneItem oracle now st item).reviewQueue,
        i.id = item.id → i.status = "resolved") ∧
      (retryOneItem oracle now st item).events = st.events ++ ["review/item.resolved"]) ∧
    (∀ item expense r,
      getExpenseS st item.runId item.expenseId = some expense →
      oracle expense = .ok r →
      (r.action = "categorize" && truthyStr r.categoryId && truthyNum r.confidence
        && r.confidence.getD 0 ≥ CONFIDENCE_THRESHOLD) = false →
      retryOneItem oracle now st item = st) := by
  refine ⟨rfl, ?_, ?_⟩
  · intro item expense r cid conf hexp horacle hact hcid hcid' hconf hge
    have hconf0 : conf ≠ 0 := by
      intro h0
      rw [h0] at hge
      norm_num [CONFIDENCE_THRESHOLD] at hge
    unfold retryOneItem
    rw [hexp]
    dsimp only
    rw [horacle]
    dsimp only
    rw [hact, hcid, hconf]
    rw [if_pos (by simp [truthyStr, truthyNum, hcid', hconf0, ge_iff_le, hge])]
    dsimp only
    cases hrun : getWorkflowRunS
        (resolveReviewQueueItemS (saveCategorizationS st
          { expenseId := expense.id
            categoryId := (some cid).getD ""
            confidence := (some conf).getD 0
            reasoning := "Auto-resolved after new category creation: " ++ r.reasoning
            amount := expense.amount
            date := expense.date
            description := expense.description
            merchant := expense.merchant
            createdAt := expense.date
            categorizedAt := now
            categorizationSource := "retry_auto" }) item.id) item.runId with
    | none =>
      dsimp only
      refine ⟨?_, ?_, ?_⟩
      · show ∃ c ∈ (saveCategorizationS st _).categorizations, _
        unfold saveCategorizationS
        by_cases hany : (st.categorizations.any fun old => old.expenseId = expense.id) = true
        · rw [if_pos hany]
          obtain ⟨old, hold, holdid⟩ := List.any_eq_true.mp hany
          have holdid' : old.expenseId = expense.id := by simpa using holdid
          refine ⟨_, List.mem_map_of_mem _ hold, ?_⟩
          dsimp only
          rw [if_pos holdid']
          exact ⟨rfl, rfl, rfl, rfl⟩
        · rw [if_neg hany]
          exact ⟨_, List.mem_append_right _ (List.mem_singleton.mpr rfl),
            rfl, rfl, rfl, rfl⟩
      · intro i hi hiid
        rw [show (resolveReviewQueueItemS (saveCategorizationS st _) item.id).reviewQueue =
            (saveCategorizationS st _).reviewQueue.map (fun j =>
              if j.id = item.id then { j with status := "resolved" } else j) from rfl,
          helper_saveCat_reviewQueue] at hi
        obtain ⟨j, hj, rfl⟩ := List.mem_map.mp hi
        by_cases hjid : j.id = item.id
        · rw [if_pos hjid]
        · rw [if_neg hjid]
          rw [if_neg hjid] at hiid
          exact absurd hiid hjid
      · show (resolveReviewQueueItemS (saveCategorizationS st _) item.id).events ++ _ = _
        dsimp only [resolveReviewQueueItemS]
        rw [helper_saveCat_events]
    | some run =>
      dsimp only
      refine ⟨?_, ?_, ?_⟩
      · show ∃ c ∈ (saveCategorizationS st _).categorizations, _
        unfold saveCategorizationS
        by_cases hany : (st.categorizations.any fun old => old.expenseId = expense.id) = true
        · rw [if_pos hany]
          obtain ⟨old, hold, holdid⟩ := List.any_eq_true.mp hany
          have holdid' : old.expenseId = expense.id := by simpa using holdid
          refine ⟨_, List.mem_map_of_mem _ hold, ?_⟩
          dsimp only
          rw [if_pos holdid']
          exact ⟨rfl, rfl, rfl, rfl⟩
        · rw [if_neg hany]
          exact ⟨_, List.mem_append_right _ (List.mem_singleton.mpr rfl),
            rfl, rfl, rfl, rfl⟩
      · intro i hi hiid
        rw [show (updateWorkflowRunS (resolveReviewQueueItemS (saveCategorizationS st _) item.id)
              item.runId _).reviewQueue =
            (saveCategorizationS st _).reviewQueue.map (fun j =>
              if j.id = item.id then { j with status := "resolved" } else j) from rfl,
          helper_saveCat_reviewQueue] at hi
        obtain ⟨j, hj, rfl⟩ := List.mem_map.mp hi
        by_cases hjid : j.id = item.id
        · rw [if_pos hjid]
        · rw [if_neg hjid]
          rw [if_neg hjid] at hiid
          exact absurd hiid hjid
      · show (updateWorkflowRunS (resolveReviewQueueItemS (saveCategorizationS st _) item.id)
            item.runId _).events ++ _ = _
        dsimp only [updateWorkflowRunS, resolveReviewQueueItemS]
        rw [helper_saveCat_events]
  · intro item expense r hexp horacle hguard
    unfold retryOneItem
    rw [hexp]
    dsimp only
    rw [horacle]
    dsimp only
    rw [if_neg (by rw [hguard]; exact Bool.false_ne_true)]

/-- A classifier that is now confident on the re-run. -/
def confidentOracle : ExpenseRow → Except String CategorizationResponse :=
  fun _ => .ok { action := "categorize", categoryId := some "c9"
                 confidence := some (9 / 10), reasoning := "clearly pet supplies"
                 newCategory := none }

/-- Witness for C8's amended theorem: on the one-item state, a confident re-run
writes a `retry_auto` categorization, and an inconclusive re-run changes
nothing. -/
theorem retryCascade_amended_witness :
    (∃ c ∈ (retryOneItem confidentOracle "t1" st0 pendingItem).categorizations,
      c.expenseId = chewyExp.id ∧ c.categoryId = "c9" ∧ c.confidence = 9 / 10 ∧
      c.categorizationSource = "retry_auto") ∧
    retryOneItem inconclusiveOracle "t1" st0 pendingItem = st0 :=
  ⟨((retryCascade_amended confidentOracle "t1" st0).2.1 pendingItem chewyExp
      { action := "categorize", categoryId := some "c9", confidence := some (9 / 10)
        reasoning := "clearly pet supplies", newCategory := none } "c9" (9 / 10)
      (by decide) rfl rfl rfl (by decide) rfl
      (by norm_num [CONFIDENCE_THRESHOLD])).1,
   (retryCascade_amended inconclusiveOracle "t1" st0).2.2 pendingItem chewyExp
      { action := "needs_human_review", categoryId := none, confidence := none
        reasoning := "still unsure", newCategory := none }
      (by decide) rfl (by decide)⟩

/-! ## C9: exemplar retrieval -/

theorem helper_simScore_eq_simSpec (a b : String) : simScore a b = simSpec a b := by
  unfold simScore simSpec
  by_cases h1 : lowerStr a = lowerStr b
  · simp [h1]
  · by_cases h2 : jsIncludes (lowerStr a) (lowerStr b) = true
    · simp [h1, h2]
    · by_cases h3 : jsIncludes (lowerStr b) (lowerStr a) = true
      · simp [h1, h2, h3]
      · simp [h1, h2, h3]

/-- C9: the exemplar query returns at most `limit` records (the parameter
defaults to 5), in descending order of the blended score; every returned record
passed the substring-overlap / bounded-edit-distance pre-filter, and its score
is `0.3 * sim(merchant) + 0.7 * sim(description)` with `sim` exactly as the
spec words it. -/
theorem similar_expenses_ranked (cats : List Category) (rows : List CategorizationRow)
    (merchant description : String) (limit : Nat) :
    (getSimilarCategorizedExpenses cats rows merchant description limit).length ≤ limit ∧
    List.Pairwise (fun a b => b.similarityScore ≤ a.similarityScore)
      (getSimilarCategorizedExpenses cats rows merchant description limit) ∧
    (∀ x ∈ getSimilarCategorizedExpenses cats rows merchant description limit,
      similarPreFilter merchant description
        { expenseId := "", merchant := x.merchant, description := x.description
          amount := x.amount, categoryId := x.categoryId, reasoning := x.reasoning } = true ∧
      x.similarityScore = simSpec x.merchant merchant * (3 / 10)
        + simSpec x.description description * (7 / 10)) ∧
    defaultSimilarLimit = 5 := by
  have htrans : ∀ a b c : SimilarCategorizedExpense,
      (decide (b.similarityScore ≤ a.similarityScore)) = true →
      (decide (c.similarityScore ≤ b.similarityScore)) = true →
      (decide (c.similarityScore ≤ a.similarityScore)) = true := by
    intro a b c hab hbc
    rw [decide_eq_true_eq] at *
    exact le_trans hbc hab
  have htotal : ∀ a b : SimilarCategorizedExpense,
      ((decide (b.similarityScore ≤ a.similarityScore))
        || (decide (a.similarityScore ≤ b.similarityScore))) = true := by
    intro a b
    rcases le_total b.similarityScore a.similarityScore with h | h <;> simp [h]
  refine ⟨List.length_take_le _ _, ?_, ?_, rfl⟩
  · apply List.Pairwise.sublist (List.take_sublist _ _)
    exact (List.sorted_mergeSort htrans htotal _).imp fun h => decide_eq_true_eq.mp h
  · intro x hx
    have hx₁ := List.mem_mergeSort.mp (List.mem_of_mem_take hx)
    have hx₂ := List.mem_filter.mp hx₁
    refine ⟨hx₂.2, ?_⟩
    obtain ⟨c, _, hmap⟩ := List.mem_filterMap.mp hx₂.1
    obtain ⟨cat, _, hrec⟩ := Option.map_eq_some'.mp hmap
    subst hrec
    show blendedScore merchant description c = _
    unfold blendedScore
    rw [helper_simScore_eq_simSpec, helper_simScore_eq_simSpec]

/-- A tiny category table for the C9 witness. -/
def demoCats : List Category :=
  [{ id := "c7", name := "Pet Supplies", description := "pet stuff", parentId := some "0" }]

/-- A tiny categorizations table for the C9 witness. -/
def demoRows : List CategorizationRow :=
  [{ expenseId := "e1", merchant := "Chewy", description := "dog food", amount := 20
     categoryId := "c7", reasoning := "pets" }]

/-- Witness for C9 at a tiny concrete table: one exactly-matching candidate is
returned with the full score. -/
theorem similar_expenses_ranked_witness :
    (getSimilarCategorizedExpenses demoCats demoRows "Chewy" "dog food" 5).length ≤ 5 ∧
    (∀ x ∈ getSimilarCategorizedExpenses demoCats demoRows "Chewy" "dog food" 5,
      similarPreFilter "Chewy" "dog food"
        { expenseId := "", merchant := x.merchant, description := x.description
          amount := x.amount, categoryId := x.categoryId, reasoning := x.reasoning } = true ∧
      x.similarityScore = simSpec x.merchant "Chewy" * (3 / 10)
        + simSpec x.description "dog food" * (7 / 10)) :=
  ⟨(similar_expenses_ranked demoCats demoRows "Chewy" "dog food" 5).1,
   (similar_expenses_ranked demoCats demoRows "Chewy" "dog food" 5).2.2.1⟩

end Finna
